import Mathlib

/-!
Shallow embedding of `src/circuitcode.ino`, a time-multiplexed analog
sensor scanner for an Arduino Mega.  The sketch drives four digital
select lines (pins 13, 12, 11, 10) to address a multiplexer, waits 50 ms
for settling, samples the fixed reference input `A0` and a per-channel
input from `analogPins = {A8..A15}`, stores both readings into two
8-entry buffers, and after scanning channels 0-3 and 8-11 prints an
18-line report over serial, then idles 500 ms.

The environment (the ADC) is modelled as a sampler function from the
analog pin number and the current state of the four select lines to an
integer reading.  Execution of one `loop()` iteration is modelled as a
function from the scanner state to the new state together with a trace
of externally visible events (digital writes, delays, analog reads,
buffer stores, serial output).
-/

/-- Select-line pin `C0 = 13` (source line 1). -/
def C0 : Nat := 13

/-- Select-line pin `C1 = 12` (source line 2). -/
def C1 : Nat := 12

/-- Select-line pin `C2 = 11` (source line 3). -/
def C2 : Nat := 11

/-- Select-line pin `C3 = 10` (source line 4). -/
def C3 : Nat := 10

/-- Analog pin `A0`.  On the Arduino Mega (the only board with `A15`,
which the source uses) analog pin `An` is digital pin `54 + n`. -/
def A0 : Nat := 54

/-- `analogPins[8] = {A8, A9, A10, A11, A12, A13, A14, A15}`
(source line 9); `An = 54 + n` on the Mega. -/
def analogPins : List Nat := [62, 63, 64, 65, 66, 67, 68, 69]

/-- The pin of select line `k` (line 0 is `C0` … line 3 is `C3`). -/
def linePin (k : Nat) : Nat := [C0, C1, C2, C3].getD k 0

/-- The logical levels of the four select-line outputs. -/
structure Lines where
  l0 : Bool
  l1 : Bool
  l2 : Bool
  l3 : Bool
deriving DecidableEq, Repr

/-- The 4-bit binary decomposition of a channel number, as select-line
levels: line `k` carries `bitRead c k`, i.e. bit `k` of `c`. -/
def encodeLines (c : Nat) : Lines :=
  ⟨c.testBit 0, c.testBit 1, c.testBit 2, c.testBit 3⟩

/-- The channel number encoded by a select-line state. -/
def decodeLines (l : Lines) : Nat :=
  (if l.l0 then 1 else 0) + 2 * (if l.l1 then 1 else 0)
    + 4 * (if l.l2 then 1 else 0) + 8 * (if l.l3 then 1 else 0)

/-- The mutable state of the sketch: the select-line outputs and the two
global buffers `valuesA0[8]` (reference readings, source line 7) and
`valuesAnalog[8]` (per-channel readings, source line 6). -/
structure ScannerState where
  lines : Lines
  valuesA0 : List Int
  valuesAnalog : List Int
deriving DecidableEq, Repr

/-- State at power-up: C++ globals are zero-initialised and the outputs
start low after `setup()`. -/
def initState : ScannerState :=
  ⟨⟨false, false, false, false⟩, List.replicate 8 0, List.replicate 8 0⟩

/-- Externally visible events of one execution. -/
inductive Event where
  | digitalWrite (pin : Nat) (level : Bool)
  | delayEv (ms : Nat)
  | analogReadEv (pin : Nat)
  | writeA0 (idx : Nat) (v : Int)
  | writeAnalog (idx : Nat) (v : Int)
  | printEv (s : String)
  | printlnEv (s : String)
deriving DecidableEq, Repr

/-- The environment: an `analogRead` result as a function of the pin
sampled and the select-line levels at the moment of sampling. -/
def Sampler : Type := Nat → Lines → Int

/-- One iteration of a scan loop body (source lines 22-29 and 35-42):
write the four bits of `ch` to the select lines, delay 50 ms, read `A0`
into `valuesA0[idx]`, then read `analogPins[idx]` into
`valuesAnalog[idx]`.  The first loop calls it with `idx = ch` (channels
0-3), the second with `idx = ch - 4` (channels 8-11). -/
def chanStep (smp : Sampler) (ch idx : Nat) (st : ScannerState) :
    ScannerState × List Event :=
  let ls := encodeLines ch
  let refV := smp A0 ls
  let chV := smp (analogPins.getD idx 0) ls
  (⟨ls, st.valuesA0.set idx refV, st.valuesAnalog.set idx chV⟩,
   [Event.digitalWrite C0 (ch.testBit 0),
    Event.digitalWrite C1 (ch.testBit 1),
    Event.digitalWrite C2 (ch.testBit 2),
    Event.digitalWrite C3 (ch.testBit 3),
    Event.delayEv 50,
    Event.analogReadEv A0,
    Event.writeA0 idx refV,
    Event.analogReadEv (analogPins.getD idx 0),
    Event.writeAnalog idx chV])

/-- The scan phase of `loop()` (source lines 21-43): the loop
`for (i = 0; i < 4)` storing at index `i`, then the loop
`for (i = 8; i < 12)` storing at index `i - 4`. -/
def scanCycle (smp : Sampler) (st : ScannerState) :
    ScannerState × List Event :=
  let r1 := [0, 1, 2, 3].foldl
    (fun acc i =>
      let r := chanStep smp i i acc.1
      (r.1, acc.2 ++ r.2))
    (st, ([] : List Event))
  [8, 9, 10, 11].foldl
    (fun acc i =>
      let r := chanStep smp i (i - 4) acc.1
      (r.1, acc.2 ++ r.2))
    r1

/-- The report phase of `loop()` (source lines 47-61): a header line,
the eight reference readings, a second header line, the eight
per-channel readings.  Each value line is assembled from three
`Serial.print` calls and one `Serial.println`. -/
def report (st : ScannerState) : List Event :=
  [Event.printlnEv "Sensors 0-7 Readings:"]
  ++ ([0, 1, 2, 3, 4, 5, 6, 7].foldl
      (fun acc i =>
        acc ++ [Event.printEv "A0 Value[",
                Event.printEv (toString i),
                Event.printEv "] = ",
                Event.printlnEv (toString (st.valuesA0.getD i 0))])
      ([] : List Event))
  ++ [Event.printlnEv "Sensors 8-15 Readings:"]
  ++ ([0, 1, 2, 3, 4, 5, 6, 7].foldl
      (fun acc i =>
        acc ++ [Event.printEv "Analog Value[",
                Event.printEv (toString i),
                Event.printEv "] = ",
                Event.printlnEv (toString (st.valuesAnalog.getD i 0))])
      ([] : List Event))

/-- One full iteration of `loop()` (source lines 19-63): scan, report,
then `delay(500)`. -/
def loopOnce (smp : Sampler) (st : ScannerState) :
    ScannerState × List Event :=
  let r := scanCycle smp st
  (r.1, r.2 ++ report r.1 ++ [Event.delayEv 500])

/-- Assemble the serial output of a trace into lines: `printEv` extends
the current line, `printlnEv` terminates it. -/
def linesAux : String → List Event → List String
  | acc, Event.printEv s :: rest => linesAux (acc ++ s) rest
  | acc, Event.printlnEv s :: rest => (acc ++ s) :: linesAux "" rest
  | acc, _ :: rest => linesAux acc rest
  | _, [] => []

/-- The complete serial lines emitted by a trace. -/
def serialLines (tr : List Event) : List String := linesAux "" tr

/-- Decode the sequence of channel selections from a trace: each run of
four digital writes to pins 13, 12, 11, 10 is one selection, decoded
with pin 13 as bit 0 through pin 10 as bit 3. -/
def selectedChannels : List Event → List Nat
  | Event.digitalWrite 13 b0 :: Event.digitalWrite 12 b1 ::
      Event.digitalWrite 11 b2 :: Event.digitalWrite 10 b3 :: rest =>
    ((if b0 then 1 else 0) + 2 * (if b1 then 1 else 0)
      + 4 * (if b2 then 1 else 0) + 8 * (if b3 then 1 else 0))
      :: selectedChannels rest
  | _ :: rest => selectedChannels rest
  | [] => []

/-- The digital writes of a trace, as (pin, level) pairs. -/
def digitalWrites (tr : List Event) : List (Nat × Bool) :=
  tr.filterMap fun e =>
    match e with
    | Event.digitalWrite p b => some (p, b)
    | _ => none

/-- The pins sampled by `analogRead`, in trace order. -/
def analogReadPins (tr : List Event) : List Nat :=
  tr.filterMap fun e =>
    match e with
    | Event.analogReadEv p => some p
    | _ => none

/-- The storage indices written in the reference buffer, in order. -/
def writesA0 (tr : List Event) : List Nat :=
  tr.filterMap fun e =>
    match e with
    | Event.writeA0 i _ => some i
    | _ => none

/-- The storage indices written in the per-channel buffer, in order. -/
def writesAnalog (tr : List Event) : List Nat :=
  tr.filterMap fun e =>
    match e with
    | Event.writeAnalog i _ => some i
    | _ => none

/-- The (storage index, pin) pairs of per-channel samples: each
`analogRead` whose result is immediately stored in the per-channel
buffer, paired with the index it is stored at. -/
def perChannelSamples : List Event → List (Nat × Nat)
  | Event.analogReadEv p :: Event.writeAnalog i _ :: rest =>
    (i, p) :: perChannelSamples rest
  | _ :: rest => perChannelSamples rest
  | [] => []

/-- Pairs of buffer-write indices belonging to one channel visit: a
reference-buffer write, the per-channel read, and the per-channel
write, in immediate succession. -/
def writePairs : List Event → List (Nat × Nat)
  | Event.writeA0 i _ :: Event.analogReadEv _ :: Event.writeAnalog j _ :: rest =>
    (i, j) :: writePairs rest
  | _ :: rest => writePairs rest
  | [] => []

/-- Settle-delay discipline of a trace: tracks the milliseconds of
delay accumulated since the most recent digital write, and requires
each analog read after a digital write to see at least 50 ms. -/
def settleAux : Option Nat → List Event → Bool
  | _, Event.digitalWrite _ _ :: rest => settleAux (some 0) rest
  | some d, Event.delayEv ms :: rest => settleAux (some (d + ms)) rest
  | some d, Event.analogReadEv _ :: rest =>
    decide (50 ≤ d) && settleAux (some d) rest
  | acc, _ :: rest => settleAux acc rest
  | _, [] => true

/-- A trace respects the settle discipline from a fresh start. -/
def settleOK (tr : List Event) : Bool := settleAux none tr

/-- The storage index of a visited channel: channels 0-3 keep their
value, channels 8-11 map to 4-7. -/
def storageIndex (c : Nat) : Nat := if c < 4 then c else c - 4

/-- A deterministic mock environment: the reference pin reads
`100 + c` and every other pin reads `200 + c`, where `c` is the channel
currently encoded on the select lines. -/
def mockSampler : Sampler := fun p l =>
  if p = A0 then 100 + (decodeLines l : Int) else 200 + (decodeLines l : Int)

/-- A deterministic environment depending only on the pin sampled. -/
def pinSampler : Nat → Int := fun p => (p : Int)

/-- A list of length 8 is an explicit 8-tuple. -/
theorem exists_eight (l : List Int) (h : l.length = 8) :
    ∃ x0 x1 x2 x3 x4 x5 x6 x7, l = [x0, x1, x2, x3, x4, x5, x6, x7] := by
  rcases l with _ | ⟨x0, _ | ⟨x1, _ | ⟨x2, _ | ⟨x3, _ | ⟨x4, _ | ⟨x5, _ | ⟨x6, _ | ⟨x7, _ | ⟨x8, t⟩⟩⟩⟩⟩⟩⟩⟩⟩ <;>
    simp at h
  exact ⟨x0, x1, x2, x3, x4, x5, x6, x7, rfl⟩

/-- Computation of one scan cycle on length-8 buffers: the select lines
end at the encoding of channel 11, the reference buffer holds the `A0`
samples for channels 0-3 and 8-11 in storage order, and the per-channel
buffer holds the samples of `A8`-`A15` taken during those selections. -/
theorem scanCycle_result (smp : Sampler) (st : ScannerState)
    (hA : st.valuesA0.length = 8) (hB : st.valuesAnalog.length = 8) :
    (scanCycle smp st).1 =
      ⟨encodeLines 11,
       [smp A0 (encodeLines 0), smp A0 (encodeLines 1),
        smp A0 (encodeLines 2), smp A0 (encodeLines 3),
        smp A0 (encodeLines 8), smp A0 (encodeLines 9),
        smp A0 (encodeLines 10), smp A0 (encodeLines 11)],
       [smp 62 (encodeLines 0), smp 63 (encodeLines 1),
        smp 64 (encodeLines 2), smp 65 (encodeLines 3),
        smp 66 (encodeLines 8), smp 67 (encodeLines 9),
        smp 68 (encodeLines 10), smp 69 (encodeLines 11)]⟩ := by
  obtain ⟨l, vA, vB⟩ := st
  obtain ⟨x0, x1, x2, x3, x4, x5, x6, x7, hx⟩ := exists_eight vA hA
  obtain ⟨y0, y1, y2, y3, y4, y5, y6, y7, hy⟩ := exists_eight vB hB
  subst hx; subst hy
  rfl

/-- C1: for every pair of deterministic mock samplers where sampling the
reference input during channel `c`'s selection yields `100 + c` and
sampling channel `c`'s per-channel input yields `200 + c`, one
`scanCycle()` leaves the reference buffer equal to
`[100,101,102,103,108,109,110,111]` and the per-channel buffer equal to
`[200,201,202,203,208,209,210,211]` at storage indices 0-7. -/
theorem C1_end_to_end_scenario (smp : Sampler) (st : ScannerState)
    (hA : st.valuesA0.length = 8) (hB : st.valuesAnalog.length = 8)
    (h : ∀ c ∈ [0, 1, 2, 3, 8, 9, 10, 11],
      smp A0 (encodeLines c) = (100 + c : Int) ∧
      smp (analogPins.getD (storageIndex c) 0) (encodeLines c) = (200 + c : Int)) :
    (scanCycle smp st).1.valuesA0 = [100, 101, 102, 103, 108, 109, 110, 111] ∧
    (scanCycle smp st).1.valuesAnalog = [200, 201, 202, 203, 208, 209, 210, 211] := by
  obtain ⟨r0, s0⟩ := h 0 (by decide)
  obtain ⟨r1, s1⟩ := h 1 (by decide)
  obtain ⟨r2, s2⟩ := h 2 (by decide)
  obtain ⟨r3, s3⟩ := h 3 (by decide)
  obtain ⟨r8, s8⟩ := h 8 (by decide)
  obtain ⟨r9, s9⟩ := h 9 (by decide)
  obtain ⟨r10, s10⟩ := h 10 (by decide)
  obtain ⟨r11, s11⟩ := h 11 (by decide)
  have e0 : smp 62 (encodeLines 0) = (200 + (0 : Nat) : Int) := s0
  have e1 : smp 63 (encodeLines 1) = (200 + (1 : Nat) : Int) := s1
  have e2 : smp 64 (encodeLines 2) = (200 + (2 : Nat) : Int) := s2
  have e3 : smp 65 (encodeLines 3) = (200 + (3 : Nat) : Int) := s3
  have e8 : smp 66 (encodeLines 8) = (200 + (8 : Nat) : Int) := s8
  have e9 : smp 67 (encodeLines 9) = (200 + (9 : Nat) : Int) := s9
  have e10 : smp 68 (encodeLines 10) = (200 + (10 : Nat) : Int) := s10
  have e11 : smp 69 (encodeLines 11) = (200 + (11 : Nat) : Int) := s11
  rw [scanCycle_result smp st hA hB]
  constructor
  · show [smp A0 (encodeLines 0), smp A0 (encodeLines 1),
          smp A0 (encodeLines 2), smp A0 (encodeLines 3),
          smp A0 (encodeLines 8), smp A0 (encodeLines 9),
          smp A0 (encodeLines 10), smp A0 (encodeLines 11)] = _
    rw [r0, r1, r2, r3, r8, r9, r10, r11]
    norm_num
  · show [smp 62 (encodeLines 0), smp 63 (encodeLines 1),
          smp 64 (encodeLines 2), smp 65 (encodeLines 3),
          smp 66 (encodeLines 8), smp 67 (encodeLines 9),
          smp 68 (encodeLines 10), smp 69 (encodeLines 11)] = _
    rw [e0, e1, e2, e3, e8, e9, e10, e11]
    norm_num

/-- Witness for C1: the mock sampler satisfies the hypotheses and the
buffers come out as claimed. -/
theorem C1_end_to_end_scenario_witness :
    initState.valuesA0.length = 8 ∧ initState.valuesAnalog.length = 8 ∧
    (∀ c ∈ [0, 1, 2, 3, 8, 9, 10, 11],
      mockSampler A0 (encodeLines c) = (100 + c : Int) ∧
      mockSampler (analogPins.getD (storageIndex c) 0) (encodeLines c) = (200 + c : Int)) ∧
    ((scanCycle mockSampler initState).1.valuesA0 = [100, 101, 102, 103, 108, 109, 110, 111] ∧
     (scanCycle mockSampler initState).1.valuesAnalog = [200, 201, 202, 203, 208, 209, 210, 211]) :=
  ⟨by decide, by decide, by decide,
   C1_end_to_end_scenario mockSampler initState (by decide) (by decide) (by decide)⟩

/-- C2: during every scan cycle, each visited channel `c` in
`{0,1,2,3}` stores its two readings at storage index `c`, each visited
channel `c` in `{8,9,10,11}` stores them at storage index `c - 4`, and
no channel outside `{0,1,2,3,8,9,10,11}` is ever selected. -/
theorem C2_storage_index_mapping (smp : Sampler) (st : ScannerState)
    (hA : st.valuesA0.length = 8) (hB : st.valuesAnalog.length = 8) :
    (∀ c ∈ [0, 1, 2, 3],
      (scanCycle smp st).1.valuesA0.getD c 0 = smp A0 (encodeLines c) ∧
      (scanCycle smp st).1.valuesAnalog.getD c 0 =
        smp (analogPins.getD c 0) (encodeLines c)) ∧
    (∀ c ∈ [8, 9, 10, 11],
      (scanCycle smp st).1.valuesA0.getD (c - 4) 0 = smp A0 (encodeLines c) ∧
      (scanCycle smp st).1.valuesAnalog.getD (c - 4) 0 =
        smp (analogPins.getD (c - 4) 0) (encodeLines c)) ∧
    (∀ c ∈ selectedChannels (scanCycle smp st).2, c ∈ [0, 1, 2, 3, 8, 9, 10, 11]) := by
  have hsel : selectedChannels (scanCycle smp st).2 = [0, 1, 2, 3, 8, 9, 10, 11] := rfl
  rw [scanCycle_result smp st hA hB]
  refine ⟨?_, ?_, ?_⟩
  · intro c hc
    simp only [List.mem_cons, List.not_mem_nil, or_false] at hc
    rcases hc with rfl | rfl | rfl | rfl <;> exact ⟨rfl, rfl⟩
  · intro c hc
    simp only [List.mem_cons, List.not_mem_nil, or_false] at hc
    rcases hc with rfl | rfl | rfl | rfl <;> exact ⟨rfl, rfl⟩
  · intro c hc
    rw [hsel] at hc
    exact hc

/-- Witness for C2: the mapping at the power-up state under the mock
sampler, checked at channels 2 and 9. -/
theorem C2_storage_index_mapping_witness :
    initState.valuesA0.length = 8 ∧ initState.valuesAnalog.length = 8 ∧
    ((scanCycle mockSampler initState).1.valuesA0.getD 2 0 =
       mockSampler A0 (encodeLines 2) ∧
     (scanCycle mockSampler initState).1.valuesAnalog.getD 2 0 =
       mockSampler (analogPins.getD 2 0) (encodeLines 2)) ∧
    ((scanCycle mockSampler initState).1.valuesA0.getD (9 - 4) 0 =
       mockSampler A0 (encodeLines 9) ∧
     (scanCycle mockSampler initState).1.valuesAnalog.getD (9 - 4) 0 =
       mockSampler (analogPins.getD (9 - 4) 0) (encodeLines 9)) :=
  ⟨by decide, by decide,
   (C2_storage_index_mapping mockSampler initState (by decide) (by decide)).1
     2 (by decide),
   (C2_storage_index_mapping mockSampler initState (by decide) (by decide)).2.1
     9 (by decide)⟩

/-- C3: for every logical channel `c` in `{0,1,2,3,8,9,10,11}` that is
selected, the four select-line digital outputs are set to exactly the
4-bit binary decomposition of `c`, select line `k` receiving bit `k`. -/
theorem C3_select_line_bits (smp : Sampler) (st : ScannerState) (idx c : Nat)
    (hc : c ∈ [0, 1, 2, 3, 8, 9, 10, 11]) :
    digitalWrites (chanStep smp c idx st).2 =
      (List.range 4).map (fun k => (linePin k, c.testBit k)) ∧
    (chanStep smp c idx st).1.lines = encodeLines c :=
  ⟨rfl, rfl⟩

/-- Witness for C3: channel 11 at storage index 7. -/
theorem C3_select_line_bits_witness :
    (11 ∈ [0, 1, 2, 3, 8, 9, 10, 11]) ∧
    (digitalWrites (chanStep mockSampler 11 7 initState).2 =
       (List.range 4).map (fun k => (linePin k, (11 : Nat).testBit k)) ∧
     (chanStep mockSampler 11 7 initState).1.lines = encodeLines 11) :=
  ⟨by decide, C3_select_line_bits mockSampler initState 7 11 (by decide)⟩

/-- C4: every report writes exactly 18 lines, in order: the header
`"Sensors 0-7 Readings:"`, the 8 reference-buffer values as
`"A0 Value[i] = v"`, the header `"Sensors 8-15 Readings:"`, then the 8
per-channel-buffer values as `"Analog Value[i] = v"`. -/
theorem C4_report_eighteen_lines (st : ScannerState)
    (hA : st.valuesA0.length = 8) (hB : st.valuesAnalog.length = 8) :
    serialLines (report st) =
      ["Sensors 0-7 Readings:"]
      ++ (List.range 8).map
          (fun i => "A0 Value[" ++ toString i ++ "] = "
            ++ toString (st.valuesA0.getD i 0))
      ++ ["Sensors 8-15 Readings:"]
      ++ (List.range 8).map
          (fun i => "Analog Value[" ++ toString i ++ "] = "
            ++ toString (st.valuesAnalog.getD i 0)) ∧
    (serialLines (report st)).length = 18 := by
  obtain ⟨l, vA, vB⟩ := st
  obtain ⟨x0, x1, x2, x3, x4, x5, x6, x7, hx⟩ := exists_eight vA hA
  obtain ⟨y0, y1, y2, y3, y4, y5, y6, y7, hy⟩ := exists_eight vB hB
  subst hx; subst hy
  exact ⟨rfl, rfl⟩

/-- Witness for C4: the report of the power-up state. -/
theorem C4_report_eighteen_lines_witness :
    initState.valuesA0.length = 8 ∧ initState.valuesAnalog.length = 8 ∧
    (serialLines (report initState) =
      ["Sensors 0-7 Readings:"]
      ++ (List.range 8).map
          (fun i => "A0 Value[" ++ toString i ++ "] = "
            ++ toString (initState.valuesA0.getD i 0))
      ++ ["Sensors 8-15 Readings:"]
      ++ (List.range 8).map
          (fun i => "Analog Value[" ++ toString i ++ "] = "
            ++ toString (initState.valuesAnalog.getD i 0)) ∧
     (serialLines (report initState)).length = 18) :=
  ⟨by decide, by decide, C4_report_eighteen_lines initState (by decide) (by decide)⟩

/-- C5: each scan cycle visits the logical channels in exactly the
fixed order 0, 1, 2, 3, 8, 9, 10, 11, takes exactly 8 samples per
buffer, and never visits logical addresses 4-7 or 12-15. -/
theorem C5_visit_order (smp : Sampler) (st : ScannerState) :
    selectedChannels (scanCycle smp st).2 = [0, 1, 2, 3, 8, 9, 10, 11] ∧
    (writesA0 (scanCycle smp st).2).length = 8 ∧
    (writesAnalog (scanCycle smp st).2).length = 8 ∧
    ∀ c ∈ [4, 5, 6, 7, 12, 13, 14, 15],
      c ∉ selectedChannels (scanCycle smp st).2 := by
  have hsel : selectedChannels (scanCycle smp st).2 = [0, 1, 2, 3, 8, 9, 10, 11] := rfl
  have hdead : ∀ c ∈ [4, 5, 6, 7, 12, 13, 14, 15],
      c ∉ ([0, 1, 2, 3, 8, 9, 10, 11] : List Nat) := by decide
  refine ⟨rfl, rfl, rfl, ?_⟩
  intro c hc
  rw [hsel]
  exact hdead c hc

/-- C6: after every scan cycle both buffers still have exactly 8
entries, each storage index 0-7 is written exactly once per buffer per
cycle, and each index's reference and per-channel halves are written
together within the same channel visit. -/
theorem C6_buffers_refreshed_once (smp : Sampler) (st : ScannerState)
    (hA : st.valuesA0.length = 8) (hB : st.valuesAnalog.length = 8) :
    (scanCycle smp st).1.valuesA0.length = 8 ∧
    (scanCycle smp st).1.valuesAnalog.length = 8 ∧
    writesA0 (scanCycle smp st).2 = [0, 1, 2, 3, 4, 5, 6, 7] ∧
    writesAnalog (scanCycle smp st).2 = [0, 1, 2, 3, 4, 5, 6, 7] ∧
    writePairs (scanCycle smp st).2 =
      [(0, 0), (1, 1), (2, 2), (3, 3), (4, 4), (5, 5), (6, 6), (7, 7)] := by
  rw [scanCycle_result smp st hA hB]
  exact ⟨rfl, rfl, rfl, rfl, rfl⟩

/-- Witness for C6: the invariant at the power-up state under the mock
sampler. -/
theorem C6_buffers_refreshed_once_witness :
    initState.valuesA0.length = 8 ∧ initState.valuesAnalog.length = 8 ∧
    ((scanCycle mockSampler initState).1.valuesA0.length = 8 ∧
     (scanCycle mockSampler initState).1.valuesAnalog.length = 8 ∧
     writesA0 (scanCycle mockSampler initState).2 = [0, 1, 2, 3, 4, 5, 6, 7] ∧
     writesAnalog (scanCycle mockSampler initState).2 = [0, 1, 2, 3, 4, 5, 6, 7] ∧
     writePairs (scanCycle mockSampler initState).2 =
       [(0, 0), (1, 1), (2, 2), (3, 3), (4, 4), (5, 5), (6, 6), (7, 7)]) :=
  ⟨by decide, by decide,
   C6_buffers_refreshed_once mockSampler initState (by decide) (by decide)⟩

/-- C7: with a deterministic sampler that is a fixed function of the pin
alone, running the scan cycle twice in succession leaves the buffers
exactly as they were after the first cycle. -/
theorem C7_scan_idempotent (f : Nat → Int) (st : ScannerState)
    (hA : st.valuesA0.length = 8) (hB : st.valuesAnalog.length = 8) :
    (scanCycle (fun p _ => f p) ((scanCycle (fun p _ => f p) st).1)).1.valuesA0 =
      (scanCycle (fun p _ => f p) st).1.valuesA0 ∧
    (scanCycle (fun p _ => f p) ((scanCycle (fun p _ => f p) st).1)).1.valuesAnalog =
      (scanCycle (fun p _ => f p) st).1.valuesAnalog := by
  have h1 := scanCycle_result (fun p _ => f p) st hA hB
  have hA2 : ((scanCycle (fun p _ => f p) st).1).valuesA0.length = 8 := by
    rw [h1]; rfl
  have hB2 : ((scanCycle (fun p _ => f p) st).1).valuesAnalog.length = 8 := by
    rw [h1]; rfl
  have h2 := scanCycle_result (fun p _ => f p)
    ((scanCycle (fun p _ => f p) st).1) hA2 hB2
  rw [h2, h1]
  exact ⟨rfl, rfl⟩

/-- Witness for C7: the pin-valued sampler at the power-up state. -/
theorem C7_scan_idempotent_witness :
    initState.valuesA0.length = 8 ∧ initState.valuesAnalog.length = 8 ∧
    ((scanCycle (fun p _ => pinSampler p)
        ((scanCycle (fun p _ => pinSampler p) initState).1)).1.valuesA0 =
       (scanCycle (fun p _ => pinSampler p) initState).1.valuesA0 ∧
     (scanCycle (fun p _ => pinSampler p)
        ((scanCycle (fun p _ => pinSampler p) initState).1)).1.valuesAnalog =
       (scanCycle (fun p _ => pinSampler p) initState).1.valuesAnalog) :=
  ⟨by decide, by decide,
   C7_scan_idempotent pinSampler initState (by decide) (by decide)⟩

/-- C8: in every scan cycle (and in the full loop iteration), each
setting of the select lines is followed by at least 50 ms of blocking
delay before any analog sample is taken for that selection. -/
theorem C8_settle_before_sample (smp : Sampler) (st : ScannerState) :
    settleOK (scanCycle smp st).2 = true ∧
    settleOK (loopOnce smp st).2 = true :=
  ⟨rfl, rfl⟩

/-- C9: in every scan cycle the reference pin `A0` is sampled strictly
before the per-channel input of each visit, the per-channel pin stored
at index `k` is `analogPins[k]`, and the eight per-channel pins are
mutually distinct and never the reference pin. -/
theorem C9_reference_first_pin_table (smp : Sampler) (st : ScannerState) :
    analogReadPins (scanCycle smp st).2 =
      [A0, 62, A0, 63, A0, 64, A0, 65, A0, 66, A0, 67, A0, 68, A0, 69] ∧
    perChannelSamples (scanCycle smp st).2 =
      (List.range 8).map (fun k => (k, analogPins.getD k 0)) ∧
    analogPins.Nodup ∧ A0 ∉ analogPins :=
  ⟨rfl, rfl, by decide, by decide⟩

/-- C10: the report step and the idle pause never write to the digital
outputs, so between the end of one scan cycle and the next selection the
select lines keep the last selected address, channel 11 = binary 1011. -/
theorem C10_lines_unchanged_after_cycle (smp : Sampler) (st : ScannerState) :
    digitalWrites (report (scanCycle smp st).1) = [] ∧
    digitalWrites (loopOnce smp st).2 = digitalWrites (scanCycle smp st).2 ∧
    (scanCycle smp st).1.lines = encodeLines 11 ∧
    (loopOnce smp st).1.lines = encodeLines 11 ∧
    encodeLines 11 = ⟨true, true, false, true⟩ :=
  ⟨rfl, rfl, rfl, rfl, by decide⟩
